import Mathlib

/-!
Verification of the correlated request/response broker of mcp-web-capture.

The repository has two variants of the broker, `mcp-server/websocket_manager.py`
and `python-backend/websocket_manager.py`.  Both keep two Python dicts:
`active_connections : {conn_id: websocket}` and
`pending_responses : {message_id: Future}`.  We embed Python dicts as
insertion-ordered association lists (`dict[k] = v` updates the entry in place
when the key is present, otherwise appends; `next(iter(d.values()))` is the
first entry; `pop(k, None)` removes the entry for `k` when present).
-/

namespace MCPWebCapture

namespace Dict

/-- Python `d.get(k)` / `d[k]`: value of the first entry whose key is `k`. -/
def get? {α : Type} : List (String × α) → String → Option α
  | [], _ => none
  | p :: rest, k => if p.1 = k then some p.2 else get? rest k

/-- Python `k in d`. -/
def hasKey {α : Type} (l : List (String × α)) (k : String) : Bool :=
  (get? l k).isSome

/-- Python `d[k] = v`: update in place when `k` is present, else append. -/
def insert {α : Type} : List (String × α) → String → α → List (String × α)
  | [], k, v => [(k, v)]
  | p :: rest, k, v => if p.1 = k then (k, v) :: rest else p :: insert rest k v

/-- Python `d.pop(k, None)`: drop the entry for `k` (no-op when absent). -/
def pop {α : Type} (l : List (String × α)) (k : String) : List (String × α) :=
  l.filter (fun p => p.1 != k)

theorem hasKey_eq_false_iff {α : Type} (l : List (String × α)) (k : String) :
    hasKey l k = false ↔ get? l k = none := by
  cases h : get? l k <;> simp [hasKey, h]

theorem get?_insert_self {α : Type} (l : List (String × α)) (k : String) (v : α) :
    get? (insert l k v) k = some v := by
  induction l with
  | nil => simp [insert, get?]
  | cons p rest ih =>
    by_cases h : p.1 = k
    · simp [insert, h, get?]
    · simp [insert, h, get?, ih]

theorem get?_insert_ne {α : Type} (l : List (String × α)) (k k' : String) (v : α)
    (h : k' ≠ k) : get? (insert l k v) k' = get? l k' := by
  induction l with
  | nil => simp [insert, get?, Ne.symm h]
  | cons p rest ih =>
    by_cases hp : p.1 = k
    · subst hp
      simp [insert, get?, Ne.symm h]
    · by_cases hp' : p.1 = k'
      · simp [insert, hp, get?, hp', h]
      · simp [insert, hp, get?, hp', ih]

theorem length_insert_of_mem {α : Type} (l : List (String × α)) (k : String) (v : α)
    (h : get? l k ≠ none) : (insert l k v).length = l.length := by
  induction l with
  | nil => simp [get?] at h
  | cons p rest ih =>
    by_cases hp : p.1 = k
    · simp [insert, hp]
    · simp [get?, hp] at h
      simp [insert, hp, ih h]

theorem length_insert_of_fresh {α : Type} (l : List (String × α)) (k : String) (v : α)
    (h : get? l k = none) : (insert l k v).length = l.length + 1 := by
  induction l with
  | nil => simp [insert]
  | cons p rest ih =>
    by_cases hp : p.1 = k
    · simp [get?, hp] at h
    · simp [get?, hp] at h
      simp [insert, hp, ih h]

theorem pop_insert_of_fresh {α : Type} (l : List (String × α)) (k : String) (v : α)
    (h : get? l k = none) : pop (insert l k v) k = l := by
  induction l with
  | nil => simp [insert, pop, List.filter_cons]
  | cons p rest ih =>
    by_cases hp : p.1 = k
    · simp [get?, hp] at h
    · simp [get?, hp] at h
      simp [insert, hp, pop, List.filter_cons, bne_iff_ne, hp]
      simpa [pop] using ih h

theorem get?_pop_self {α : Type} (l : List (String × α)) (k : String) :
    get? (pop l k) k = none := by
  induction l with
  | nil => rfl
  | cons p rest ih =>
    by_cases hp : p.1 = k
    · simpa [pop, List.filter_cons, hp] using ih
    · simpa [pop, List.filter_cons, bne_iff_ne, hp, get?] using ih

theorem hasKey_pop_self {α : Type} (l : List (String × α)) (k : String) :
    hasKey (pop l k) k = false := by
  simp [hasKey, get?_pop_self]

theorem pop_pop {α : Type} (l : List (String × α)) (k : String) :
    pop (pop l k) k = pop l k := by
  induction l with
  | nil => rfl
  | cons p rest ih =>
    by_cases hp : p.1 = k
    · simp [pop, List.filter_cons, hp]
    · simp [pop, List.filter_cons, bne_iff_ne, hp]

end Dict

/-- A JSON message as the broker sees it: the `message_id` key when present,
the `image_data` key when present (used by the screenshot tool), and the
remaining payload, opaque to the broker. -/
structure Message where
  message_id : Option String
  image_data : Option String
  body : String
deriving DecidableEq

/-- An `asyncio.Future` stored in `pending_responses`: unresolved, or resolved
with the reply message (`future.done()` holds exactly in the second case). -/
inductive FutureState where
  | pending
  | resolved (value : Message)
deriving DecidableEq

/-- The `WebSocketManager` state: `active_connections : {conn_id: websocket}`
(sockets modelled by an opaque handle) and `pending_responses
: {message_id: Future}`. -/
structure WSManager where
  active_connections : List (String × Nat)
  pending_responses : List (String × FutureState)
deriving DecidableEq

/-- How the environment behaves after `send_message` registers its future:
`websocket.send_json` raises, or the future is resolved before the timeout,
or `asyncio.wait_for` times out. -/
inductive SendOutcome where
  | sendError
  | resolved (response : Message)
  | timeout
deriving DecidableEq

/-- How a `send_message` call ends: a returned response, a raised
`ConnectionError` with its message, a raised `asyncio.TimeoutError`
(never produced by this code, which converts it — kept so that the
distinction is expressible), or some other exception propagating. -/
inductive SendResult where
  | ok (response : Message)
  | connectionError (msg : String)
  | timeoutError
  | raised
deriving DecidableEq

/-- Result of a `send_message` call: the outcome for the caller, the manager
state after the call, and the message actually passed to
`websocket.send_json` (`none` when the call failed before transmitting). -/
structure SendEffect where
  result : SendResult
  state : WSManager
  sent : Option Message
deriving DecidableEq

/-- `connect` (both variants): accept, then `conn_id = conn_id or str(uuid.uuid4())`
— the preferred id is used unless it is absent or falsy (the empty string), in
which case the freshly generated uuid is used — then `active_connections[conn_id]
= websocket`.  Returns the id and the new state. -/
def connect (st : WSManager) (websocket : Nat) (conn_id : Option String)
    (fresh : String) : String × WSManager :=
  let cid := match conn_id with
    | some c => if c = "" then fresh else c
    | none => fresh
  (cid, { st with active_connections := Dict.insert st.active_connections cid websocket })

/-- `disconnect` (both variants): `if conn_id in active_connections:
active_connections.pop(conn_id)`.  Nothing else is touched. -/
def disconnect (st : WSManager) (conn_id : String) : WSManager :=
  { st with active_connections := Dict.pop st.active_connections conn_id }

/-- The message id used by the mcp-server `send_message`
(`if not message.get("message_id", "")` generate a uuid, else keep the
caller's): the caller's id when present and non-empty, else the fresh uuid. -/
def effectiveId_mcp (message : Message) (fresh : String) : String :=
  match message.message_id with
  | some mid => if mid = "" then fresh else mid
  | none => fresh

/-- The shared tail of both `send_message` variants once a websocket is found
and the message id is chosen: set `message["message_id"]`, register a fresh
future under the id, transmit and wait (`outcome` chooses the exit path:
other exception / response / timeout-converted-to-ConnectionError), and in
the `finally` block `pending_responses.pop(message_id, None)`. -/
def sendCore (st : WSManager) (message : Message) (message_id : String)
    (outcome : SendOutcome) : SendEffect :=
  let message' := { message with message_id := some message_id }
  let registered := Dict.insert st.pending_responses message_id FutureState.pending
  let cleaned := Dict.pop registered message_id
  match outcome with
  | .sendError =>
      ⟨.raised, { st with pending_responses := cleaned }, some message'⟩
  | .resolved r =>
      ⟨.ok r, { st with pending_responses := cleaned }, some message'⟩
  | .timeout =>
      ⟨.connectionError "等待响应超时", { st with pending_responses := cleaned }, some message'⟩

/-- `mcp-server/websocket_manager.py` `send_message`: fail when no
connections; pick the target by id when `target_conn_id` is truthy
(non-empty), else the first connection; fail when the named target is
missing; then run the shared tail with the mcp id policy. -/
def send_message_mcp (st : WSManager) (message : Message)
    (target_conn_id : Option String) (fresh : String)
    (outcome : SendOutcome) : SendEffect :=
  match st.active_connections with
  | [] => ⟨.connectionError "没有活动的 WebSocket 连接", st, none⟩
  | _first :: _ =>
    match target_conn_id with
    | some t =>
      if t = "" then sendCore st message (effectiveId_mcp message fresh) outcome
      else
        match Dict.get? st.active_connections t with
        | none => ⟨.connectionError ("未找到目标连接: " ++ t), st, none⟩
        | some _ => sendCore st message (effectiveId_mcp message fresh) outcome
    | none => sendCore st message (effectiveId_mcp message fresh) outcome

/-- `python-backend/websocket_manager.py` `send_message`: identical except the
message id is always the freshly generated uuid
(`message_id = str(uuid.uuid4()); message["message_id"] = message_id`),
replacing any caller-supplied id. -/
def send_message_backend (st : WSManager) (message : Message)
    (target_conn_id : Option String) (fresh : String)
    (outcome : SendOutcome) : SendEffect :=
  match st.active_connections with
  | [] => ⟨.connectionError "没有活动的 WebSocket 连接", st, none⟩
  | _first :: _ =>
    match target_conn_id with
    | some t =>
      if t = "" then sendCore st message fresh outcome
      else
        match Dict.get? st.active_connections t with
        | none => ⟨.connectionError ("未找到目标连接: " ++ t), st, none⟩
        | some _ => sendCore st message fresh outcome
    | none => sendCore st message fresh outcome

/-- `handle_response` (identical in both variants): read `data.get("message_id")`;
when it is a known key whose future is not yet done, `future.set_result(data)`;
in every other case do nothing.  The function is total — no exception is ever
raised to the caller. -/
def handle_response (st : WSManager) (data : Message) : WSManager :=
  match data.message_id with
  | none => st
  | some message_id =>
    match Dict.get? st.pending_responses message_id with
    | none => st
    | some FutureState.pending =>
        { st with pending_responses :=
            Dict.insert st.pending_responses message_id (FutureState.resolved data) }
    | some (FutureState.resolved _) => st

/-- True exactly when a `send_message` call with this state and target gets past
the connection checks and reaches the register/transmit/wait phase. -/
def targetResolvable (st : WSManager) (target_conn_id : Option String) : Bool :=
  !st.active_connections.isEmpty &&
    (match target_conn_id with
     | some t => t == "" || (Dict.get? st.active_connections t).isSome
     | none => true)

/-- How an MCP tool call ends: a returned string, or an uncaught exception
propagating to the MCP framework. -/
inductive ToolResult where
  | ok (s : String)
  | raised
deriving DecidableEq

/-- `mcp-server/main.py` `screenshot`: build `"ws_browser:" + settings.connect_id`,
return an error string if that is falsy (empty), else send the screenshot
command via `send_message` to that target; on a response return its
`image_data` value when the key is present and `""` otherwise; on
`ConnectionError` return `"截图失败: " + str(e)`; any other exception
propagates. -/
def screenshot_mcp (st : WSManager) (connect_id : String) (url : String)
    (fresh : String) (outcome : SendOutcome) : ToolResult × WSManager :=
  let conn_id := "ws_browser:" ++ connect_id
  if conn_id = "" then (.ok "未获取到浏览器连接ID，请检查配置", st)
  else
    let eff := send_message_mcp st
      { message_id := none, image_data := none, body := url }
      (some conn_id) fresh outcome
    match eff.result with
    | .ok response =>
      match response.image_data with
      | some image_data => (.ok image_data, eff.state)
      | none => (.ok "", eff.state)
    | .connectionError e => (.ok ("截图失败: " ++ e), eff.state)
    | .timeoutError => (.raised, eff.state)
    | .raised => (.raised, eff.state)

/-- `python-backend/main.py` `screenshot`: return an error string when
`settings.connect_id` is `None`, else send the screenshot command via
`send_message` to that target; on a response return
`response.get("image_data", "")`; on `ConnectionError` return `str(e)`;
any other exception propagates. -/
def screenshot_backend (st : WSManager) (connect_id : Option String)
    (url : String) (fresh : String) (outcome : SendOutcome) :
    ToolResult × WSManager :=
  match connect_id with
  | none => (.ok "未获取到 connect_id", st)
  | some conn_id =>
    let eff := send_message_backend st
      { message_id := none, image_data := none, body := url }
      (some conn_id) fresh outcome
    match eff.result with
    | .ok response => (.ok (response.image_data.getD ""), eff.state)
    | .connectionError e => (.ok e, eff.state)
    | .timeoutError => (.raised, eff.state)
    | .raised => (.raised, eff.state)

/-- `mcp-server/main.py` `add` tool: `result = a + b; return result`. -/
def add_mcp (a b : Int) : Int := a + b

/-- `python-backend/main.py` `add` tool: `return a + b + 1` (its docstring
says "Add two numbers"). -/
def add_backend (a b : Int) : Int := a + b + 1

/-- The characters removed by `re.sub(r'[\\/*?:"<>|]', '_', text)`. -/
def illegalChar (c : Char) : Bool :=
  c = '\\' || c = '/' || c = '*' || c = '?' || c = ':' ||
  c = '"' || c = '<' || c = '>' || c = '|'

/-- Python's whitespace class for `str` input — `Py_UNICODE_ISSPACE`, used both
by the regex `\s` and by `str.isspace()`: tab through carriage return, the
file/group/record/unit separators U+001C–U+001F, space, next line U+0085,
no-break space U+00A0, ogham space mark U+1680, the Zs spaces U+2000–U+200A,
line separator U+2028, paragraph separator U+2029, narrow no-break space
U+202F, medium mathematical space U+205F and ideographic space U+3000. -/
def pyIsSpace (c : Char) : Bool :=
  c = ' ' || c = '\t' || c = '\n' || c = '\x0b' || c = '\x0c' || c = '\r' ||
  c = '\x1c' || c = '\x1d' || c = '\x1e' || c = '\x1f' ||
  c = '\x85' || c = '\xa0' || c = '\u1680' ||
  ('\u2000' ≤ c && c ≤ '\u200A') ||
  c = '\u2028' || c = '\u2029' || c = '\u202F' || c = '\u205F' || c = '\u3000'

/-- `re.sub(p+, r, s)` for a character class `p`: replace every maximal run of
characters satisfying `p` by the single character `r`. -/
def squashRuns (p : Char → Bool) (r : Char) : List Char → List Char
  | [] => []
  | c :: rest =>
    if p c then
      match rest with
      | [] => [r]
      | d :: _ => if p d then squashRuns p r rest else r :: squashRuns p r rest
    else c :: squashRuns p r rest

/-- First reassignment of `safe_name` in `ExtractHandler._create_safe_filename`:
`re.sub(r'[\\/*?:"<>|]', '_', text)`. -/
def safe_step1 (text : List Char) : List Char :=
  text.map (fun c => if illegalChar c then '_' else c)

/-- Second reassignment: `re.sub(r'\s+', '_', safe_name)`. -/
def safe_step2 (text : List Char) : List Char :=
  squashRuns pyIsSpace '_' (safe_step1 text)

/-- Third reassignment: `re.sub(r'_+', '_', safe_name)`. -/
def safe_step3 (text : List Char) : List Char :=
  squashRuns (fun c => c = '_') '_' (safe_step2 text)

/-- `ExtractHandler._create_safe_filename`: the three substitutions, then the
fallback `if not safe_name or safe_name.isspace(): safe_name = 'untitled'`. -/
def create_safe_filename (text : List Char) : List Char :=
  if (safe_step3 text).isEmpty
      || (!(safe_step3 text).isEmpty && (safe_step3 text).all pyIsSpace) then
    "untitled".toList
  else safe_step3 text

/-! Helper lemmas about the shared `send_message` tail and its call paths. -/

theorem sendCore_state_pending (st : WSManager) (msg : Message) (mid : String)
    (out : SendOutcome) :
    (sendCore st msg mid out).state.pending_responses
      = Dict.pop (Dict.insert st.pending_responses mid FutureState.pending) mid := by
  cases out <;> rfl

theorem sendCore_state_active (st : WSManager) (msg : Message) (mid : String)
    (out : SendOutcome) :
    (sendCore st msg mid out).state.active_connections = st.active_connections := by
  cases out <;> rfl

theorem sendCore_sent (st : WSManager) (msg : Message) (mid : String)
    (out : SendOutcome) :
    (sendCore st msg mid out).sent = some { msg with message_id := some mid } := by
  cases out <;> rfl

theorem send_message_mcp_cases (st : WSManager) (msg : Message)
    (target : Option String) (fresh : String) (out : SendOutcome) :
    send_message_mcp st msg target fresh out
        = sendCore st msg (effectiveId_mcp msg fresh) out ∨
      (send_message_mcp st msg target fresh out).state = st := by
  obtain ⟨ac, pr⟩ := st
  cases ac with
  | nil => right; rfl
  | cons f rest =>
    cases target with
    | none => left; rfl
    | some t =>
      by_cases ht : t = ""
      · left; simp [send_message_mcp, ht]
      · cases hg : Dict.get? (f :: rest) t with
        | none => right; simp [send_message_mcp, ht, hg]
        | some w => left; simp [send_message_mcp, ht, hg]

theorem send_message_backend_cases (st : WSManager) (msg : Message)
    (target : Option String) (fresh : String) (out : SendOutcome) :
    send_message_backend st msg target fresh out = sendCore st msg fresh out ∨
      (send_message_backend st msg target fresh out).state = st := by
  obtain ⟨ac, pr⟩ := st
  cases ac with
  | nil => right; rfl
  | cons f rest =>
    cases target with
    | none => left; rfl
    | some t =>
      by_cases ht : t = ""
      · left; simp [send_message_backend, ht]
      · cases hg : Dict.get? (f :: rest) t with
        | none => right; simp [send_message_backend, ht, hg]
        | some w => left; simp [send_message_backend, ht, hg]

theorem send_message_mcp_of_resolvable (st : WSManager) (msg : Message)
    (target : Option String) (fresh : String) (out : SendOutcome)
    (h : targetResolvable st target = true) :
    send_message_mcp st msg target fresh out
      = sendCore st msg (effectiveId_mcp msg fresh) out := by
  obtain ⟨ac, pr⟩ := st
  cases ac with
  | nil => simp [targetResolvable] at h
  | cons f rest =>
    cases target with
    | none => rfl
    | some t =>
      by_cases ht : t = ""
      · simp [send_message_mcp, ht]
      · simp only [targetResolvable] at h
        cases hg : Dict.get? (f :: rest) t with
        | none =>
          rw [show Dict.get? (WSManager.mk (f :: rest) pr).active_connections t
              = none from hg] at h
          simp [ht] at h
        | some w => simp [send_message_mcp, ht, hg]

theorem send_message_backend_of_resolvable (st : WSManager) (msg : Message)
    (target : Option String) (fresh : String) (out : SendOutcome)
    (h : targetResolvable st target = true) :
    send_message_backend st msg target fresh out = sendCore st msg fresh out := by
  obtain ⟨ac, pr⟩ := st
  cases ac with
  | nil => simp [targetResolvable] at h
  | cons f rest =>
    cases target with
    | none => rfl
    | some t =>
      by_cases ht : t = ""
      · simp [send_message_backend, ht]
      · simp only [targetResolvable] at h
        cases hg : Dict.get? (f :: rest) t with
        | none =>
          rw [show Dict.get? (WSManager.mk (f :: rest) pr).active_connections t
              = none from hg] at h
          simp [ht] at h
        | some w => simp [send_message_backend, ht, hg]

theorem ws_browser_ne_empty (s : String) : ("ws_browser:" ++ s) ≠ "" := by
  intro h
  have h2 := congrArg String.length h
  simp [String.length_append] at h2
  exact absurd h2.1 (by decide)

theorem mem_squashRuns (p : Char → Bool) (r : Char) :
    ∀ (l : List Char) (c : Char), c ∈ squashRuns p r l → c = r ∨ (c ∈ l ∧ p c = false) := by
  intro l
  induction l with
  | nil => intro c hc; simp [squashRuns] at hc
  | cons a rest ih =>
    intro c hc
    by_cases hp : p a
    · cases rest with
      | nil =>
        simp [squashRuns, hp] at hc
        exact Or.inl hc
      | cons d t =>
        by_cases hd : p d
        · rw [show squashRuns p r (a :: d :: t) = squashRuns p r (d :: t) from by
            simp [squashRuns, hp, hd]] at hc
          rcases ih c hc with h | ⟨h1, h2⟩
          · exact Or.inl h
          · exact Or.inr ⟨List.mem_cons_of_mem _ h1, h2⟩
        · rw [show squashRuns p r (a :: d :: t) = r :: squashRuns p r (d :: t) from by
            simp [squashRuns, hp, hd]] at hc
          rcases List.mem_cons.mp hc with h | h
          · exact Or.inl h
          · rcases ih c h with h' | ⟨h1, h2⟩
            · exact Or.inl h'
            · exact Or.inr ⟨List.mem_cons_of_mem _ h1, h2⟩
    · rw [show squashRuns p r (a :: rest) = a :: squashRuns p r rest from by
        simp [squashRuns, hp]] at hc
      rcases List.mem_cons.mp hc with h | h
      · subst h; exact Or.inr ⟨List.mem_cons_self _ _, by simpa using hp⟩
      · rcases ih c h with h' | ⟨h1, h2⟩
        · exact Or.inl h'
        · exact Or.inr ⟨List.mem_cons_of_mem _ h1, h2⟩

/-! Claim theorems. -/

/-- C1 (counterexample): in the mcp-server variant a caller may supply
`message_id`; when that id is already a pending key (here `"dup"`), the
registration `pending_responses[message_id] = future` overwrites the existing
entry and the `finally` pop then removes it, so the table ends one entry
smaller than the pre-call baseline (empty instead of size 1), not equal to it. -/
theorem send_message_duplicate_id_cx :
    (send_message_mcp ⟨[("conn1", 0)], [("dup", FutureState.pending)]⟩
        ⟨some "dup", none, "cmd"⟩ none "fresh"
        (.resolved ⟨some "dup", none, "resp"⟩)).state.pending_responses = [] ∧
    ([("dup", FutureState.pending)] : List (String × FutureState)).length = 1 ∧
    (send_message_mcp ⟨[("conn1", 0)], [("dup", FutureState.pending)]⟩
        ⟨some "dup", none, "cmd"⟩ none "fresh"
        (.resolved ⟨some "dup", none, "resp"⟩)).state.pending_responses.length
      ≠ ([("dup", FutureState.pending)] : List (String × FutureState)).length := by
  decide

/-- C1 (amended): on every exit path of `send_message` — early
`ConnectionError`, transmission exception, response, or timeout — the pending
table ends exactly equal to its pre-call value, provided the effective message
id (always the fresh uuid in the python-backend variant) is not already a
pending key; the registered entry is thus removed exactly once. -/
theorem send_message_restores_pending_of_fresh_id (st : WSManager)
    (message : Message) (target : Option String) (fresh : String)
    (outcome : SendOutcome) :
    (Dict.get? st.pending_responses (effectiveId_mcp message fresh) = none →
      (send_message_mcp st message target fresh outcome).state.pending_responses
        = st.pending_responses) ∧
    (Dict.get? st.pending_responses fresh = none →
      (send_message_backend st message target fresh outcome).state.pending_responses
        = st.pending_responses) := by
  constructor
  · intro hfresh
    rcases send_message_mcp_cases st message target fresh outcome with h | h
    · rw [h, sendCore_state_pending]
      exact Dict.pop_insert_of_fresh _ _ _ hfresh
    · rw [h]
  · intro hfresh
    rcases send_message_backend_cases st message target fresh outcome with h | h
    · rw [h, sendCore_state_pending]
      exact Dict.pop_insert_of_fresh _ _ _ hfresh
    · rw [h]

/-- C1 (witness): a concrete call on each variant, with one connection, an
empty pending table and a fresh id, ends with the pending table back at its
pre-call value. -/
theorem send_message_restores_pending_witness :
    (send_message_mcp ⟨[("c", 0)], []⟩ ⟨none, none, "x"⟩ none "f"
        .timeout).state.pending_responses = [] ∧
    (send_message_backend ⟨[("c", 0)], []⟩ ⟨none, none, "x"⟩ none "f"
        .timeout).state.pending_responses = [] :=
  ⟨(send_message_restores_pending_of_fresh_id ⟨[("c", 0)], []⟩ ⟨none, none, "x"⟩
      none "f" .timeout).1 (by decide),
   (send_message_restores_pending_of_fresh_id ⟨[("c", 0)], []⟩ ⟨none, none, "x"⟩
      none "f" .timeout).2 (by decide)⟩

/-- C2 (counterexample): on the timeout path both variants raise
`ConnectionError("等待响应超时")` (the caught `asyncio.TimeoutError` is
converted), so the claim that the call fails with `TimeoutError` as distinct
from `ConnectionError` is false. -/
theorem send_message_timeout_not_timeout_error_cx :
    (send_message_mcp ⟨[("conn1", 0)], []⟩ ⟨none, none, "cmd"⟩ none "f"
        .timeout).result = .connectionError "等待响应超时" ∧
    (send_message_mcp ⟨[("conn1", 0)], []⟩ ⟨none, none, "cmd"⟩ none "f"
        .timeout).result ≠ .timeoutError ∧
    (send_message_backend ⟨[("conn1", 0)], []⟩ ⟨none, none, "cmd"⟩ none "f"
        .timeout).result = .connectionError "等待响应超时" := by
  decide

/-- C2 (amended): whenever a `send_message` call reaches the waiting phase and
the timeout window elapses with the exchange unresolved, the call fails with
`ConnectionError("等待响应超时")` — not `TimeoutError` — and the exchange entry
is removed from the pending table regardless. -/
theorem send_message_timeout_is_connection_error (st : WSManager)
    (msg : Message) (target : Option String) (fresh : String)
    (h : targetResolvable st target = true) :
    ((send_message_mcp st msg target fresh .timeout).result
        = .connectionError "等待响应超时" ∧
      Dict.hasKey (send_message_mcp st msg target fresh
          .timeout).state.pending_responses (effectiveId_mcp msg fresh) = false) ∧
    ((send_message_backend st msg target fresh .timeout).result
        = .connectionError "等待响应超时" ∧
      Dict.hasKey (send_message_backend st msg target fresh
          .timeout).state.pending_responses fresh = false) := by
  rw [send_message_mcp_of_resolvable st msg target fresh .timeout h,
    send_message_backend_of_resolvable st msg target fresh .timeout h]
  refine ⟨⟨rfl, ?_⟩, ⟨rfl, ?_⟩⟩
  · rw [sendCore_state_pending]
    exact Dict.hasKey_pop_self _ _
  · rw [sendCore_state_pending]
    exact Dict.hasKey_pop_self _ _

/-- C2 (witness): the amended timeout behaviour at a concrete state with one
connection and an empty pending table. -/
theorem send_message_timeout_witness :
    ((send_message_mcp ⟨[("c", 0)], []⟩ ⟨none, none, "x"⟩ none "f"
        .timeout).result = .connectionError "等待响应超时" ∧
      Dict.hasKey (send_message_mcp ⟨[("c", 0)], []⟩ ⟨none, none, "x"⟩ none "f"
          .timeout).state.pending_responses
        (effectiveId_mcp ⟨none, none, "x"⟩ "f") = false) ∧
    ((send_message_backend ⟨[("c", 0)], []⟩ ⟨none, none, "x"⟩ none "f"
        .timeout).result = .connectionError "等待响应超时" ∧
      Dict.hasKey (send_message_backend ⟨[("c", 0)], []⟩ ⟨none, none, "x"⟩ none "f"
          .timeout).state.pending_responses "f" = false) :=
  send_message_timeout_is_connection_error ⟨[("c", 0)], []⟩ ⟨none, none, "x"⟩
    none "f" (by decide)

/-- C3 (counterexample): disconnecting the only connection while one exchange
is outstanding leaves that exchange in the pending table, still unresolved —
`disconnect` cancels nothing and unblocks no waiting caller, contradicting the
claim that all outstanding exchanges are cancelled with `ConnectionError` at
disconnect time. -/
theorem disconnect_no_cancellation_cx :
    disconnect ⟨[("c1", 0)], [("m1", FutureState.pending)]⟩ "c1"
      = ⟨[], [("m1", FutureState.pending)]⟩ ∧
    Dict.get? (disconnect ⟨[("c1", 0)], [("m1", FutureState.pending)]⟩
        "c1").pending_responses "m1" = some FutureState.pending := by
  decide

/-- C3 (amended): `disconnect` idempotently removes the connection-table entry
and touches nothing else: the pending table — and with it every outstanding
exchange — is left unchanged, so a waiting caller is unblocked only later, by
a response or by its own timeout (surfaced as `ConnectionError`). -/
theorem disconnect_leaves_pending_untouched (st : WSManager) (cid : String) :
    (disconnect st cid).pending_responses = st.pending_responses ∧
    (disconnect st cid).active_connections = Dict.pop st.active_connections cid ∧
    disconnect (disconnect st cid) cid = disconnect st cid := by
  refine ⟨rfl, rfl, ?_⟩
  simp [disconnect, Dict.pop_pop]

/-- C4 (confirmed): `handle_response` resolves an exchange at most once.  With
no carried id, with an unknown id, or with an already-resolved future it
returns the state unchanged (the function is total, so no error reaches its
caller); only the first resolution of a pending exchange stores a value, and
it leaves every other pending entry exactly as it was. -/
theorem handle_response_at_most_once (st : WSManager) (data : Message) :
    (data.message_id = none → handle_response st data = st) ∧
    (∀ mid, data.message_id = some mid →
      (Dict.get? st.pending_responses mid = none → handle_response st data = st) ∧
      (∀ v, Dict.get? st.pending_responses mid = some (FutureState.resolved v) →
        handle_response st data = st) ∧
      (Dict.get? st.pending_responses mid = some FutureState.pending →
        Dict.get? (handle_response st data).pending_responses mid
          = some (FutureState.resolved data) ∧
        ∀ k, k ≠ mid → Dict.get? (handle_response st data).pending_responses k
          = Dict.get? st.pending_responses k)) := by
  constructor
  · intro h
    simp [handle_response, h]
  · intro mid hmid
    refine ⟨?_, ?_, ?_⟩
    · intro hg
      simp [handle_response, hmid, hg]
    · intro v hg
      simp [handle_response, hmid, hg]
    · intro hg
      constructor
      · simp [handle_response, hmid, hg, Dict.get?_insert_self]
      · intro k hk
        simp [handle_response, hmid, hg, Dict.get?_insert_ne _ mid k _ hk]

/-- C4 (witness): an unknown id and a second reply to an already-resolved
exchange are no-ops; a first reply to a pending exchange stores the reply. -/
theorem handle_response_at_most_once_witness :
    handle_response ⟨[], [("m", FutureState.pending)]⟩ ⟨some "x", none, "r"⟩
      = ⟨[], [("m", FutureState.pending)]⟩ ∧
    handle_response ⟨[], [("m", FutureState.resolved ⟨some "m", none, "r0"⟩)]⟩
        ⟨some "m", none, "r1"⟩
      = ⟨[], [("m", FutureState.resolved ⟨some "m", none, "r0"⟩)]⟩ ∧
    Dict.get? (handle_response ⟨[], [("m", FutureState.pending)]⟩
        ⟨some "m", none, "r"⟩).pending_responses "m"
      = some (FutureState.resolved ⟨some "m", none, "r"⟩) :=
  ⟨((handle_response_at_most_once ⟨[], [("m", FutureState.pending)]⟩
      ⟨some "x", none, "r"⟩).2 "x" rfl).1 (by decide),
   (((handle_response_at_most_once
      ⟨[], [("m", FutureState.resolved ⟨some "m", none, "r0"⟩)]⟩
      ⟨some "m", none, "r1"⟩).2 "m" rfl).2.1 ⟨some "m", none, "r0"⟩ (by decide)),
   (((handle_response_at_most_once ⟨[], [("m", FutureState.pending)]⟩
      ⟨some "m", none, "r"⟩).2 "m" rfl).2.2 (by decide)).1⟩

/-- C5 (confirmed): with an empty connection table `send_message` fails
immediately with `ConnectionError("没有活动的 WebSocket 连接")`, and with a
named (non-empty) target id absent from the table it fails immediately with
`ConnectionError("未找到目标连接: ...")`; in both cases the returned state is
the input state, so no exchange is registered and the pending table is
unchanged. -/
theorem send_message_fails_fast_without_target (st : WSManager) (msg : Message)
    (target : Option String) (fresh : String) (out : SendOutcome) (t : String) :
    (st.active_connections = [] →
      send_message_mcp st msg target fresh out
        = ⟨.connectionError "没有活动的 WebSocket 连接", st, none⟩ ∧
      send_message_backend st msg target fresh out
        = ⟨.connectionError "没有活动的 WebSocket 连接", st, none⟩) ∧
    (st.active_connections ≠ [] → target = some t → t ≠ "" →
      Dict.get? st.active_connections t = none →
      send_message_mcp st msg target fresh out
        = ⟨.connectionError ("未找到目标连接: " ++ t), st, none⟩ ∧
      send_message_backend st msg target fresh out
        = ⟨.connectionError ("未找到目标连接: " ++ t), st, none⟩) := by
  obtain ⟨ac, pr⟩ := st
  constructor
  · intro hempty
    simp only at hempty
    subst hempty
    exact ⟨rfl, rfl⟩
  · intro hne htarget ht hg
    subst htarget
    cases ac with
    | nil => exact absurd rfl hne
    | cons f rest =>
      simp only at hg
      constructor
      · simp [send_message_mcp, ht, hg]
      · simp [send_message_backend, ht, hg]

/-- C5 (witness): both failure modes at concrete states — an empty registry,
and a missing named target "zz" — return the error and leave the state as it
was. -/
theorem send_message_fails_fast_witness :
    send_message_mcp ⟨[], []⟩ ⟨none, none, "x"⟩ none "f" .timeout
      = ⟨.connectionError "没有活动的 WebSocket 连接", ⟨[], []⟩, none⟩ ∧
    send_message_mcp ⟨[("c", 0)], []⟩ ⟨none, none, "x"⟩ (some "zz") "f" .timeout
      = ⟨.connectionError ("未找到目标连接: " ++ "zz"), ⟨[("c", 0)], []⟩, none⟩ :=
  ⟨((send_message_fails_fast_without_target ⟨[], []⟩ ⟨none, none, "x"⟩ none "f"
      .timeout "zz").1 rfl).1,
   ((send_message_fails_fast_without_target ⟨[("c", 0)], []⟩ ⟨none, none, "x"⟩
      (some "zz") "f" .timeout "zz").2 (by decide) rfl (by decide) (by decide)).1⟩

/-- C6 (counterexample): the python-backend `send_message` transmits under the
freshly generated id "gen" even though the payload carried the caller-supplied
id "caller-id" — the caller-supplied id is replaced, contradicting the claim
that it is honored by every variant. -/
theorem backend_replaces_caller_id_cx :
    (send_message_backend ⟨[("c", 0)], []⟩ ⟨some "caller-id", none, "x"⟩ none
        "gen" (.resolved ⟨some "gen", none, "resp"⟩)).sent
      = some ⟨some "gen", none, "x"⟩ ∧
    (send_message_backend ⟨[("c", 0)], []⟩ ⟨some "caller-id", none, "x"⟩ none
        "gen" (.resolved ⟨some "gen", none, "resp"⟩)).sent
      ≠ some ⟨some "caller-id", none, "x"⟩ := by
  decide

/-- C6 (amended): the id actually used differs per variant.  The mcp-server
`send_message` honors a caller-supplied non-empty id and generates a fresh one
exactly when the payload's id is absent or empty; the python-backend
`send_message` always transmits under the freshly generated id, replacing any
caller-supplied one.  In both variants the transmitted payload carries the
effective id. -/
theorem send_message_id_policy (st : WSManager) (msg : Message)
    (target : Option String) (fresh : String) (out : SendOutcome)
    (h : targetResolvable st target = true) :
    ((send_message_mcp st msg target fresh out).sent
        = some { msg with message_id := some (effectiveId_mcp msg fresh) }) ∧
    (∀ mid, msg.message_id = some mid → mid ≠ "" →
      effectiveId_mcp msg fresh = mid) ∧
    (msg.message_id = none → effectiveId_mcp msg fresh = fresh) ∧
    ((send_message_backend st msg target fresh out).sent
        = some { msg with message_id := some fresh }) := by
  refine ⟨?_, ?_, ?_, ?_⟩
  · rw [send_message_mcp_of_resolvable st msg target fresh out h]
    exact sendCore_sent _ _ _ _
  · intro mid hmid hne
    simp [effectiveId_mcp, hmid, hne]
  · intro hmid
    simp [effectiveId_mcp, hmid]
  · rw [send_message_backend_of_resolvable st msg target fresh out h]
    exact sendCore_sent _ _ _ _

/-- C6 (witness): with caller id "cid" the mcp-server variant transmits under
"cid" while the python-backend variant transmits under the generated "f"; with
no caller id the mcp-server variant falls back to the generated id. -/
theorem send_message_id_policy_witness :
    (send_message_mcp ⟨[("c", 0)], []⟩ ⟨some "cid", none, "x"⟩ none "f"
        .timeout).sent
      = some ⟨some (effectiveId_mcp ⟨some "cid", none, "x"⟩ "f"), none, "x"⟩ ∧
    effectiveId_mcp ⟨some "cid", none, "x"⟩ "f" = "cid" ∧
    effectiveId_mcp ⟨none, none, "x"⟩ "f" = "f" ∧
    (send_message_backend ⟨[("c", 0)], []⟩ ⟨some "cid", none, "x"⟩ none "f"
        .timeout).sent = some ⟨some "f", none, "x"⟩ :=
  ⟨(send_message_id_policy ⟨[("c", 0)], []⟩ ⟨some "cid", none, "x"⟩ none "f"
      .timeout (by decide)).1,
   (send_message_id_policy ⟨[("c", 0)], []⟩ ⟨some "cid", none, "x"⟩ none "f"
      .timeout (by decide)).2.1 "cid" rfl (by decide),
   (send_message_id_policy ⟨[("c", 0)], []⟩ ⟨none, none, "x"⟩ none "f"
      .timeout (by decide)).2.2.1 rfl,
   (send_message_id_policy ⟨[("c", 0)], []⟩ ⟨some "cid", none, "x"⟩ none "f"
      .timeout (by decide)).2.2.2⟩

/-- C7 (counterexample): `connect` with preferred id "a" while "a" is already
registered (socket 7) assigns "a" again — no fresh identifier is generated —
and replaces the existing entry with the new socket 1, leaving the
live-connection count at 1 instead of incrementing it. -/
theorem connect_duplicate_id_replaces_cx :
    connect ⟨[("a", 7)], []⟩ 1 (some "a") "f" = ("a", ⟨[("a", 1)], []⟩) ∧
    (connect ⟨[("a", 7)], []⟩ 1 (some "a") "f").2.active_connections.length
      = ([("a", 7)] : List (String × Nat)).length := by
  decide

/-- C7 (amended): `connect` assigns the preferred id whenever it is provided
and non-empty — with no duplicate check: if the id was free the entry is added
and the count grows by one, and if it was taken the existing entry is replaced
in place and the count is unchanged; a fresh identifier is used only when no
(or an empty) preferred id is given. -/
theorem connect_assigns_preferred_id (st : WSManager) (ws : Nat) (fresh : String) :
    (∀ cid, (connect st ws (some cid) fresh).1
        = if cid = "" then fresh else cid) ∧
    ((connect st ws none fresh).1 = fresh) ∧
    (∀ pid, pid ≠ "" → Dict.get? st.active_connections pid = none →
      (connect st ws (some pid) fresh).2.active_connections.length
          = st.active_connections.length + 1 ∧
      Dict.get? (connect st ws (some pid) fresh).2.active_connections pid
          = some ws) ∧
    (∀ pid, pid ≠ "" → Dict.get? st.active_connections pid ≠ none →
      (connect st ws (some pid) fresh).2.active_connections.length
          = st.active_connections.length ∧
      Dict.get? (connect st ws (some pid) fresh).2.active_connections pid
          = some ws) := by
  refine ⟨fun cid => rfl, rfl, ?_, ?_⟩
  · intro pid hne hfree
    constructor
    · show (Dict.insert st.active_connections
        (if pid = "" then fresh else pid) ws).length = _
      rw [if_neg hne]
      exact Dict.length_insert_of_fresh _ _ _ hfree
    · show Dict.get? (Dict.insert st.active_connections
        (if pid = "" then fresh else pid) ws) pid = _
      rw [if_neg hne]
      exact Dict.get?_insert_self _ _ _
  · intro pid hne htaken
    constructor
    · show (Dict.insert st.active_connections
        (if pid = "" then fresh else pid) ws).length = _
      rw [if_neg hne]
      exact Dict.length_insert_of_mem _ _ _ htaken
    · show Dict.get? (Dict.insert st.active_connections
        (if pid = "" then fresh else pid) ws) pid = _
      rw [if_neg hne]
      exact Dict.get?_insert_self _ _ _

/-- C7 (witness): registering "b" while only "a" is present adds the entry and
increments the count; registering "a" again keeps the count and stores the new
socket. -/
theorem connect_assigns_preferred_id_witness :
    (connect ⟨[("a", 7)], []⟩ 1 (some "b") "f").1 = (if "b" = "" then "f" else "b") ∧
    (connect ⟨[("a", 7)], []⟩ 1 (some "b") "f").2.active_connections.length
      = ([("a", 7)] : List (String × Nat)).length + 1 ∧
    (connect ⟨[("a", 7)], []⟩ 1 (some "a") "f").2.active_connections.length
      = ([("a", 7)] : List (String × Nat)).length :=
  ⟨(connect_assigns_preferred_id ⟨[("a", 7)], []⟩ 1 "f").1 "b",
   ((connect_assigns_preferred_id ⟨[("a", 7)], []⟩ 1 "f").2.2.1 "b"
      (by decide) (by decide)).1,
   ((connect_assigns_preferred_id ⟨[("a", 7)], []⟩ 1 "f").2.2.2 "a"
      (by decide) (by decide)).1⟩

/-- C8: the mcp-server `add` tool computes the sum (5 at a=2, b=3), but the
python-backend `add` tool computes `a + b + 1` (6 at a=2, b=3), contradicting
the spec scenario and its own docstring "Add two numbers". -/
theorem add_handlers_evaluation :
    add_mcp 2 3 = 5 ∧ add_backend 2 3 = 6 ∧ add_backend 2 3 ≠ 2 + 3 := by
  decide

/-- C9 (confirmed): neither screenshot tool propagates a `ConnectionError`:
whenever the inner `send_message` call ends with `ConnectionError(e)`, the
mcp-server tool returns the string `"截图失败: " ++ e` and the python-backend
tool returns `e`; whenever a response arrives, each returns the response's
`image_data` string, or `""` when the key is absent. -/
theorem screenshot_swallows_connection_error (st : WSManager)
    (connect_id url fresh : String) (out : SendOutcome) (e : String)
    (r : Message) :
    ((send_message_mcp st { message_id := none, image_data := none, body := url }
        (some ("ws_browser:" ++ connect_id)) fresh out).result
          = .connectionError e →
      (screenshot_mcp st connect_id url fresh out).1
        = .ok ("截图失败: " ++ e)) ∧
    ((send_message_mcp st { message_id := none, image_data := none, body := url }
        (some ("ws_browser:" ++ connect_id)) fresh out).result = .ok r →
      (screenshot_mcp st connect_id url fresh out).1
        = .ok (r.image_data.getD "")) ∧
    ((send_message_backend st { message_id := none, image_data := none, body := url }
        (some connect_id) fresh out).result = .connectionError e →
      (screenshot_backend st (some connect_id) url fresh out).1 = .ok e) ∧
    ((send_message_backend st { message_id := none, image_data := none, body := url }
        (some connect_id) fresh out).result = .ok r →
      (screenshot_backend st (some connect_id) url fresh out).1
        = .ok (r.image_data.getD "")) := by
  refine ⟨?_, ?_, ?_, ?_⟩
  · intro h
    simp [screenshot_mcp, ws_browser_ne_empty, h]
  · intro h
    cases hi : r.image_data with
    | none => simp [screenshot_mcp, ws_browser_ne_empty, h, hi]
    | some img => simp [screenshot_mcp, ws_browser_ne_empty, h, hi]
  · intro h
    simp [screenshot_backend, h]
  · intro h
    cases hi : r.image_data with
    | none => simp [screenshot_backend, h, hi]
    | some img => simp [screenshot_backend, h, hi]

/-- C9 (witness): with no connections registered each tool returns the failure
string instead of raising, and with a live connection and a reply each returns
the reply's image data (or the empty string when the reply has none). -/
theorem screenshot_swallows_connection_error_witness :
    (screenshot_mcp ⟨[], []⟩ "bt" "u" "f" .timeout).1
      = .ok ("截图失败: " ++ "没有活动的 WebSocket 连接") ∧
    (screenshot_mcp ⟨[("ws_browser:bt", 0)], []⟩ "bt" "u" "f"
        (.resolved ⟨some "f", some "IMG", "resp"⟩)).1 = .ok "IMG" ∧
    (screenshot_backend ⟨[], []⟩ (some "bt") "u" "f" .timeout).1
      = .ok "没有活动的 WebSocket 连接" ∧
    (screenshot_backend ⟨[("bt", 0)], []⟩ (some "bt") "u" "f"
        (.resolved ⟨some "f", none, "resp"⟩)).1 = .ok "" :=
  ⟨(screenshot_swallows_connection_error ⟨[], []⟩ "bt" "u" "f" .timeout
      "没有活动的 WebSocket 连接" ⟨none, none, "z"⟩).1 (by decide),
   (screenshot_swallows_connection_error ⟨[("ws_browser:bt", 0)], []⟩ "bt" "u"
      "f" (.resolved ⟨some "f", some "IMG", "resp"⟩) "z"
      ⟨some "f", some "IMG", "resp"⟩).2.1 (by decide),
   (screenshot_swallows_connection_error ⟨[], []⟩ "bt" "u" "f" .timeout
      "没有活动的 WebSocket 连接" ⟨none, none, "z"⟩).2.2.1 (by decide),
   (screenshot_swallows_connection_error ⟨[("bt", 0)], []⟩ "bt" "u" "f"
      (.resolved ⟨some "f", none, "resp"⟩) "z"
      ⟨some "f", none, "resp"⟩).2.2.2 (by decide)⟩

/-- C10 (counterexample): on the whitespace-only input `" "` the function
returns `"_"` — the `\s+` substitution produces a non-empty, non-whitespace
name, so the `'untitled'` fallback is not taken, contradicting the claim that
whitespace-only input yields `'untitled'`. -/
theorem create_safe_filename_whitespace_cx :
    create_safe_filename [' '] = ['_'] ∧
    create_safe_filename [' '] ≠ "untitled".toList := by
  decide

/-- C10 (amended): for every input the result is a non-empty list containing
none of the characters removed by the illegal-character class and no
whitespace; the fallback `'untitled'` is produced for the empty input (and a
whitespace-only input yields `"_"`, not `'untitled'`). -/
theorem create_safe_filename_safe (text : List Char) :
    create_safe_filename text ≠ [] ∧
    (∀ c, c ∈ create_safe_filename text →
      illegalChar c = false ∧ pyIsSpace c = false) ∧
    (text = [] → create_safe_filename text = "untitled".toList) := by
  have huntitled : ∀ c ∈ "untitled".toList,
      illegalChar c = false ∧ pyIsSpace c = false := by decide
  have hmem : ∀ c, c ∈ safe_step3 text →
      illegalChar c = false ∧ pyIsSpace c = false := by
    intro c hc
    rcases mem_squashRuns _ _ _ c hc with h | ⟨h2, _⟩
    · subst h; exact ⟨by decide, by decide⟩
    · rcases mem_squashRuns _ _ _ c h2 with h | ⟨h1, hp1⟩
      · subst h; exact ⟨by decide, by decide⟩
      · rcases List.mem_map.mp h1 with ⟨a, ha, hfa⟩
        by_cases hia : illegalChar a
        · rw [if_pos hia] at hfa
          subst hfa
          exact ⟨by decide, by decide⟩
        · rw [if_neg hia] at hfa
          subst hfa
          exact ⟨by simpa using hia, hp1⟩
  refine ⟨?_, ?_, ?_⟩
  · unfold create_safe_filename
    split
    · decide
    · next hcond =>
      intro h
      exact hcond (by simp [h])
  · intro c hc
    unfold create_safe_filename at hc
    split at hc
    · exact huntitled c hc
    · exact hmem c hc
  · intro h
    subst h
    decide

/-- C10 (witness): a concrete run — `"a b"` maps to the non-empty safe name
`"a_b"` containing the safe character `'a'`, and the empty input maps to
`'untitled'`. -/
theorem create_safe_filename_safe_witness :
    create_safe_filename "a b".toList ≠ [] ∧
    (illegalChar 'a' = false ∧ pyIsSpace 'a' = false) ∧
    create_safe_filename [] = "untitled".toList :=
  ⟨(create_safe_filename_safe "a b".toList).1,
   (create_safe_filename_safe "a b".toList).2.1 'a' (by decide),
   (create_safe_filename_safe []).2.2 rfl⟩

end MCPWebCapture
